import Mathlib

/-!
A shallow embedding of the whitenoise Tauri command layer
(`src-tauri/src/commands/groups.rs` and `src-tauri/src/commands/accounts.rs`).

External collaborators (the nostr SDK, the MLS engine `nostr_openmls`, the
secrets store, the group manager, the account manager, the Tauri event bus)
are modelled either as oracle functions carried in an environment record or,
where the repository's own specification pins their behaviour down, as
spec-modelled pure functions (marked as such in their doc comments).
Machine behaviour that the commands observe only through `Result` values is
modelled with `Except String`; a Rust panic (`unwrap` / `expect`) is a
distinguished outcome constructor, never an `Except` error.
-/

namespace Whitenoise

/-- A nostr tag: a kind (e.g. `"h"`, `"relays"`, `"expiration"`) and its
values.  `tag.content()` in the SDK returns the first value. -/
structure NTag where
  kind : String
  values : List String
deriving DecidableEq, Repr

/-- First value of a tag, mirroring `Tag::content()`. -/
def NTag.content? (t : NTag) : Option String :=
  t.values.head?

/-- A signed relay event as returned by a relay query.  The 32-byte event id
is modelled as a `Nat` (its ordering models the lexicographic byte order used
by `a.id.cmp(&b.id)`). -/
structure NEvent where
  id : Nat
  created_at : Nat
  tags : List NTag
  content : String
deriving DecidableEq, Repr

/-- An `UnsignedEvent`: the inner application event.  `id` is `none` until
`ensure_id` has computed the deterministic hash. -/
structure UnsignedEvent where
  pubkey : String
  created_at : Nat
  kind : Nat
  tags : List NTag
  content : String
  id : Option Nat
deriving DecidableEq, Repr

/-- `GroupType` from `crate::groups`. -/
inductive GroupType where
  | directMessage
  | group
deriving DecidableEq, Repr

/-- The locally registered group record. -/
structure Group where
  mlsGroupId : List Nat
  nostrGroupId : String
  epoch : Nat
  groupType : GroupType
  relayUrls : List String
  transcript : List UnsignedEvent
deriving DecidableEq, Repr

/-- Result of a Rust function observed by the caller: normal return,
`Err` return, or a panic (`unwrap` / `expect`). -/
inductive Outcome (α : Type) where
  | ok (val : α)
  | err (msg : String)
  | panic (msg : String)
deriving DecidableEq, Repr

/-- `nostr_openmls::groups::GroupError`, split exactly as the `match` in
`fetch_mls_messages` splits it: `ProcessMessageError(_)` versus every other
variant. -/
inductive GroupErr where
  | processMessageError (msg : String)
  | otherError (msg : String)
deriving DecidableEq, Repr

/-! ## Relay-set composition

`create_group` (lines 128–135): clone the settings relays and, in a dev
build, `push` `ws://localhost:8080`.

`send_mls_message` (lines 376–380): in a dev build the relay list is
`vec!["ws://localhost:8080"]`; otherwise `group.relay_urls.clone()`. -/

/-- Relay set handed to the MLS engine by `create_group`. -/
def composeGroupRelays (settingsRelays : List String) (isDevBuild : Bool) : List String :=
  if isDevBuild then settingsRelays ++ ["ws://localhost:8080"] else settingsRelays

/-- Relay set used by `send_mls_message` when publishing the group message. -/
def sendMessageRelays (isDevBuild : Bool) (groupRelayUrls : List String) : List String :=
  if isDevBuild then ["ws://localhost:8080"] else groupRelayUrls

/-! ## Welcome-message retry loop (`create_group`, lines 210–247)

The Rust loop is
`while retry_count < max_retries { match send { Ok => break, Err e =>
{ last_error = Some e; retry_count += 1; if retry_count < max_retries
{ sleep 1s } } } }` followed by
`if retry_count == max_retries { return Err(...) }`.

We mirror it with structural recursion on `remaining = maxRetries -
retryCount` (the loop guard `retry_count < max_retries` holds exactly when
`remaining > 0`).  `sleeps` counts the 1-second delays performed. -/

/-- State of the retry loop when it exits. -/
structure RetryResult where
  retryCount : Nat
  sleeps : Nat
  lastError : Option String
  succeeded : Bool
deriving DecidableEq, Repr

/-- The retry loop body.  `attempt i` is the outcome of `send_event_to` on
the `i`-th attempt (0-based). -/
def welcomeLoop (attempt : Nat → Except String Unit) (maxRetries : Nat) :
    Nat → Nat → Option String → Nat → RetryResult
  | 0, rc, le, s => ⟨rc, s, le, false⟩
  | remaining + 1, rc, le, s =>
    match attempt rc with
    | .ok _ => ⟨rc, s, le, true⟩
    | .error e =>
      welcomeLoop attempt maxRetries remaining (rc + 1) (some e)
        (if rc + 1 < maxRetries then s + 1 else s)

/-- The retry loop entered with `max_retries = 5`, `retry_count = 0`,
`last_error = None`. -/
def welcomeRetry (attempt : Nat → Except String Unit) : RetryResult :=
  welcomeLoop attempt 5 5 0 none 0

/-- Number of `send_event_to` calls the loop actually made. -/
def RetryResult.attemptsMade (r : RetryResult) : Nat :=
  if r.succeeded then r.retryCount + 1 else r.retryCount

/-- The error string built by
`format!("Failed to send event after {} attempts. Last error: {:?}", ...)`. -/
def mkWelcomeFailure (maxRetries : Nat) (lastError : Option String) : String :=
  "Failed to send event after " ++ toString maxRetries ++
    " attempts. Last error: " ++ toString (repr lastError)

/-- Publication of one member's gift-wrapped welcome: run the retry loop,
then `if retry_count == max_retries { return Err(...) }`. -/
def welcomePublish (attempt : Nat → Except String Unit) : Except String Unit :=
  let r := welcomeRetry attempt
  if r.retryCount = 5 then .error (mkWelcomeFailure 5 r.lastError) else .ok ()

/-- The per-member fan-out loop of `create_group` (lines 157–254).
`prepare m` bundles the member's pubkey parse, contact enrichment, welcome
rumor construction and gift-wrapping (all of which abort `create_group` via
`?` on failure); `attempt m i` is the `i`-th publish attempt for member
`m`. -/
def welcomeFanout (prepare : String → Except String Unit)
    (attempt : String → Nat → Except String Unit) :
    List String → Except String Unit
  | [] => .ok ()
  | m :: rest =>
    match prepare m with
    | .error e => .error e
    | .ok _ =>
      match welcomePublish (attempt m) with
      | .error e => .error e
      | .ok _ => welcomeFanout prepare attempt rest

/-- `true` on an `Err`, `false` on an `Ok`. -/
def isErr {ε α : Type} : Except ε α → Bool
  | .error _ => true
  | .ok _ => false

/-! ## Group manager (spec-modelled)

`crate::group_manager` is not part of the two command files; its behaviour is
fixed by the repository specification (§4.2). -/

/-- `true` iff the transcript already holds an entry with the given event id,
mirroring `group.transcript.iter().any(|e| e.id == json_event.id)`. -/
def hasEventId (transcript : List UnsignedEvent) (i : Option Nat) : Bool :=
  transcript.any (fun t => t.id == i)

/-- Modelled from the spec: `GroupManager.append_message` (§4.2) — "appends
to transcript iff no existing entry has the same event id; duplicates are
silently dropped". -/
def addMessageToGroup (transcript : List UnsignedEvent) (ue : UnsignedEvent) :
    List UnsignedEvent :=
  if hasEventId transcript ue.id then transcript else transcript ++ [ue]

/-- The `nostr_group_data` produced by the MLS engine's `create_group`
together with the resulting group's member count and ids, i.e. everything
`create_group` reads off `create_group_result`. -/
structure MlsCreateResult where
  memberCount : Nat
  groupId : List Nat
  epoch : Nat
  nostrGroupId : String
  adminPubkeys : List String
  groupRelays : List String
deriving DecidableEq, Repr

/-- Modelled from the spec: `GroupManager.add` (§4.2) — "fails with
`Duplicate` if either id is already known; `group_data` supplies
nostr_group_id, admins, relays"; returns the registered group. -/
def addGroupMgr (mgr : List Group) (mlsId : List Nat) (epoch : Nat)
    (gt : GroupType) (data : MlsCreateResult) : Except String (Group × List Group) :=
  if mgr.any (fun g => g.mlsGroupId == mlsId || g.nostrGroupId == data.nostrGroupId) then
    .error "Duplicate group"
  else
    let g : Group :=
      { mlsGroupId := mlsId
        nostrGroupId := data.nostrGroupId
        epoch := epoch
        groupType := gt
        relayUrls := data.groupRelays
        transcript := [] }
    .ok (g, mgr ++ [g])

/-- Modelled from the spec: `GroupManager.append_message` lifted to the
catalog — `NotFound` for an unknown group, otherwise the updated group and
catalog. -/
def mgrAddMessage (mgr : List Group) (mlsId : List Nat) (ue : UnsignedEvent) :
    Except String (Group × List Group) :=
  match mgr.find? (fun g => g.mlsGroupId == mlsId) with
  | none => .error "Group not found"
  | some g =>
    let g' := { g with transcript := addMessageToGroup g.transcript ue }
    .ok (g', mgr.map (fun h => if h.mlsGroupId == mlsId then g' else h))

/-! ## `create_group` (groups.rs lines 87–299) -/

/-- Modelled from the spec: `crate::groups::validate_group_members`
(§4.5.1 step 2) — "creator ∉ members; admins ⊆ members ∪ \x7bcreator\x7d;
member list has no duplicates; |members| ≥ 1". -/
def validateGroupMembers (creator : String) (members admins : List String) :
    Except String Unit :=
  if members.contains creator then .error "Creator must not be a member"
  else if ¬ admins.all (fun a => members.contains a || a == creator) then
    .error "Admins must be members"
  else if members.eraseDups.length ≠ members.length then
    .error "Duplicate members"
  else if members.length < 1 then .error "No members"
  else .ok ()

/-- Oracles for the external calls `create_group` makes, in source order.
`activePubkey` is `account_manager.get_active_account()` (its pubkey);
`signerPubkey` is `signer.get_public_key()`; `fetchKeyPackages` is
`fetch_key_packages_for_members`; `mlsCreateGroup` is
`nostr_mls.create_group` applied to the composed relay set;
`prepareWelcome` bundles the per-member pubkey parse, contact enrichment,
rumor building, and gift-wrapping; `sendAttempt m i` is the `i`-th
`send_event_to` for member `m`; `emitGroupAdded` is
`app_handle.emit("group_added", ...)`; `addGroupIds` is
`account_manager.add_group_ids`. -/
structure CGEnv where
  activePubkey : Except String String
  signerPubkey : Except String String
  fetchKeyPackages : List String → Except String (List String)
  settingsRelays : List String
  isDevBuild : Bool
  mlsCreateGroup : List String → Except String MlsCreateResult
  prepareWelcome : String → Except String Unit
  sendAttempt : String → Nat → Except String Unit
  emitGroupAdded : Group → Except String Unit
  addGroupIds : Except String Unit

/-- `if mls_group.members().count() == 2 { GroupType::DirectMessage } else
{ GroupType::Group }` (lines 256–260). -/
def groupTypeForCount (memberCount : Nat) : GroupType :=
  if memberCount = 2 then GroupType.directMessage else GroupType.group

/-- The `create_group` command.  Returns the command's `Result` and the
group-manager catalog as it stands when the command returns. -/
def createGroup (env : CGEnv) (mgr : List Group) (creatorPubkey : String)
    (memberPubkeys adminPubkeys : List String) : Except String Group × List Group :=
  match env.activePubkey with
  | .error e => (.error e, mgr)
  | .ok active =>
    match env.signerPubkey with
    | .error e => (.error e, mgr)
    | .ok signerPk =>
      if active ≠ creatorPubkey ∨ active ≠ signerPk then
        (.error "You must be the creator to create a group", mgr)
      else
        match validateGroupMembers creatorPubkey memberPubkeys adminPubkeys with
        | .error e => (.error e, mgr)
        | .ok _ =>
          match env.fetchKeyPackages memberPubkeys with
          | .error e => (.error e, mgr)
          | .ok _kps =>
            match env.mlsCreateGroup (composeGroupRelays env.settingsRelays env.isDevBuild) with
            | .error e => (.error e, mgr)
            | .ok res =>
              match welcomeFanout env.prepareWelcome env.sendAttempt memberPubkeys with
              | .error e => (.error e, mgr)
              | .ok _ =>
                match addGroupMgr mgr res.groupId res.epoch
                    (groupTypeForCount res.memberCount) res with
                | .error e => (.error e, mgr)
                | .ok (nostrGroup, mgr') =>
                  match env.emitGroupAdded nostrGroup with
                  | .error e => (.error e, mgr')
                  | .ok _ =>
                    match env.addGroupIds with
                    | .error e => (.error e, mgr')
                    | .ok _ => (.ok nostrGroup, mgr')

/-! ## `send_mls_message` (groups.rs lines 301–398) -/

/-- Oracles for the external calls `send_mls_message` makes, in source
order.  `eventIdOf` is the deterministic id hash computed by `ensure_id`;
`toJson` is `serde_json::to_string`; `createMessage` is
`nostr_mls.create_message_for_group`; `exportSecret` is
`export_secret_as_hex_secret_key_and_epoch`; `storeSecret` is
`secrets_store::store_mls_export_secret`; `parseKeys` is
`Keys::parse(&export_secret_hex)`; `encrypt` is `nip44::encrypt` with the
export keypair at both ends; `signEvent` builds and signs the
`MlsGroupMessage` event (ciphertext, `h` tag) with an ephemeral key;
`publish` is `send_event_to`; `emitSent` is
`app_handle.emit("mls_message_sent", ...)`. -/
structure SendEnv where
  signerPubkey : Except String String
  now : Nat
  eventIdOf : UnsignedEvent → Nat
  toJson : UnsignedEvent → Except String String
  createMessage : List Nat → String → Except String (List Nat)
  exportSecret : List Nat → Except String (String × Nat)
  storeSecret : List Nat → Nat → String → Except String Unit
  parseKeys : String → Except String Unit
  encrypt : String → List Nat → Except String String
  signEvent : String → String → Except String NEvent
  publish : List String → NEvent → Except String Unit
  emitSent : Except String Unit
  isDevBuild : Bool

/-- The inner chat event of `send_mls_message`: `UnsignedEvent::new(pubkey,
now, Kind::Custom(9), vec![], message)` followed by `ensure_id()`. -/
def mkInnerEvent (env : SendEnv) (pk message : String) : UnsignedEvent :=
  let e0 : UnsignedEvent :=
    { pubkey := pk, created_at := env.now, kind := 9, tags := [],
      content := message, id := none }
  { e0 with id := some (env.eventIdOf e0) }

/-- The `send_mls_message` command.  Returns the command's outcome (its
normal result is the inner `UnsignedEvent`; a failing
`emit("mls_message_sent")` is an `expect`, i.e. a panic) and the
group-manager catalog as it stands when the command returns. -/
def sendMlsMessage (env : SendEnv) (mgr : List Group) (group : Group)
    (message : String) : Outcome UnsignedEvent × List Group :=
  match env.signerPubkey with
  | .error e => (.err e, mgr)
  | .ok pk =>
    let innerEvent := mkInnerEvent env pk message
    match env.toJson innerEvent with
    | .error e => (.err e, mgr)
    | .ok jsonEventString =>
      match env.createMessage group.mlsGroupId jsonEventString with
      | .error e => (.err e, mgr)
      | .ok serializedMessage =>
        match env.exportSecret group.mlsGroupId with
        | .error e => (.err e, mgr)
        | .ok (exportSecretHex, epoch) =>
          match env.storeSecret group.mlsGroupId epoch exportSecretHex with
          | .error e => (.err e, mgr)
          | .ok _ =>
            match env.parseKeys exportSecretHex with
            | .error e => (.err e, mgr)
            | .ok _ =>
              match env.encrypt exportSecretHex serializedMessage with
              | .error e => (.err e, mgr)
              | .ok encryptedContent =>
                match env.signEvent encryptedContent group.nostrGroupId with
                | .error e => (.err e, mgr)
                | .ok publishedEvent =>
                  match env.publish (sendMessageRelays env.isDevBuild group.relayUrls)
                      publishedEvent with
                  | .error e => (.err e, mgr)
                  | .ok _ =>
                    match mgrAddMessage mgr group.mlsGroupId innerEvent with
                    | .error e => (.err e, mgr)
                    | .ok (_newGroup, mgr') =>
                      match env.emitSent with
                      | .error _ => (.panic "Couldn't emit event", mgr')
                      | .ok _ => (.ok innerEvent, mgr')

/-! ## `fetch_mls_messages` (groups.rs lines 402–579), per-group batch -/

/-- Oracles for the external calls the per-event loop of
`fetch_mls_messages` makes.  `getKeys` is the epoch-keypair acquisition
(secrets-store lookup with fall-back to the engine's `export_secret` plus
`store`; on the fall-back path an engine or store error aborts the command
via `?`); `decrypt` is `nip44::decrypt_to_bytes` with those keys;
`processMessage` is `nostr_mls.process_message_for_group`; `jsonParse` is
`serde_json::from_slice::<serde_json::Value>` (the resulting value
rendered by `.to_string()`); `ueFromJson` is `UnsignedEvent::from_json`;
`emitReceived` is `app_handle.emit("mls_message_received", ...)`. -/
structure FetchEnv where
  getKeys : Except String Unit
  decrypt : String → Except String (List Nat)
  processMessage : List Nat → Except GroupErr (List Nat)
  jsonParse : List Nat → Option String
  ueFromJson : String → Option UnsignedEvent
  emitReceived : UnsignedEvent → Except String Unit

/-- What the decode chain (keys → decrypt → MLS process → JSON parse →
`UnsignedEvent::from_json`) does to one relay event, before the transcript
check. -/
inductive DecodeOutcome where
  | abortD (err : String)
  | panicD
  | skipD
  | msgD (ue : UnsignedEvent)
deriving DecidableEq, Repr

/-- Decode one relay event of a group batch, mirroring the body of the
`for event in sorted_events` loop up to the transcript check. -/
def decodeEvent (env : FetchEnv) (e : NEvent) : DecodeOutcome :=
  match env.getKeys with
  | .error err => .abortD err
  | .ok _ =>
    match env.decrypt e.content with
    | .error err => .abortD ("Error decrypting message: " ++ err)
    | .ok decryptedContent =>
      match env.processMessage decryptedContent with
      | .error _ => .skipD
      | .ok messageVec =>
        match env.jsonParse messageVec with
        | none => .skipD
        | some jsonStr =>
          match env.ueFromJson jsonStr with
          | none => .panicD
          | some jsonEvent => .msgD jsonEvent

/-- Result of processing one group's batch: normal completion, an early
`Err` return of the whole command, or a panic.  Carries the group's
transcript in the manager and the list of `mls_message_received`
emissions. -/
inductive FetchGroupResult where
  | ok (transcript emitted : List UnsignedEvent)
  | error (err : String) (transcript emitted : List UnsignedEvent)
  | panicked (msg : String) (transcript emitted : List UnsignedEvent)
deriving DecidableEq, Repr

/-- The `for event in sorted_events` loop.  `snapshot` is
`group.transcript` as read once when the batch's group was resolved —
the loop never re-reads it; appends go to the manager (`transcript`). -/
def fetchGroupEvents (env : FetchEnv) (snapshot : List UnsignedEvent) :
    List NEvent → List UnsignedEvent → List UnsignedEvent → FetchGroupResult
  | [], transcript, emitted => .ok transcript emitted
  | e :: rest, transcript, emitted =>
    match decodeEvent env e with
    | .abortD err => .error err transcript emitted
    | .panicD =>
      .panicked "called unwrap on an Err of UnsignedEvent from_json" transcript emitted
    | .skipD => fetchGroupEvents env snapshot rest transcript emitted
    | .msgD ue =>
      if hasEventId snapshot ue.id then
        fetchGroupEvents env snapshot rest transcript emitted
      else
        match env.emitReceived ue with
        | .error _ =>
          .panicked "Couldn't emit event" (addMessageToGroup transcript ue) emitted
        | .ok _ =>
          fetchGroupEvents env snapshot rest (addMessageToGroup transcript ue)
            (emitted ++ [ue])

/-- The comparator `a.created_at.cmp(&b.created_at).then(a.id.cmp(&b.id))`
as a ≤-test. -/
def eventLe (a b : NEvent) : Bool :=
  a.created_at < b.created_at || (a.created_at == b.created_at && a.id ≤ b.id)

/-- Insert into a list sorted by `eventLe`. -/
def insertEvent (e : NEvent) : List NEvent → List NEvent
  | [] => [e]
  | x :: xs => if eventLe e x then e :: x :: xs else x :: insertEvent e xs

/-- `sorted_events.sort_by(...)`: sort the bucket ascending by
`(created_at, id)`. -/
def sortEvents : List NEvent → List NEvent
  | [] => []
  | e :: es => insertEvent e (sortEvents es)

/-- Processing of one `(nostr_group_id, events)` bucket: sort the bucket,
then run the event loop.  The manager-side transcript starts equal to the
snapshot `group.transcript`, and no emission has happened yet. -/
def fetchForGroup (env : FetchEnv) (groupTranscript : List UnsignedEvent)
    (events : List NEvent) : FetchGroupResult :=
  fetchGroupEvents env groupTranscript (sortEvents events) groupTranscript []

/-- Bucketing of queried events by the value of their `h` tag (events
without an `h` tag or with an empty one are dropped), as an insertion-ordered
association list standing in for the `HashMap` fold. -/
def groupByHTag (events : List NEvent) : List (String × List NEvent) :=
  events.foldl
    (fun acc e =>
      match (e.tags.find? (fun t => t.kind == "h")).bind NTag.content? with
      | none => acc
      | some gid =>
        if acc.any (fun p => p.1 == gid) then
          acc.map (fun p => if p.1 == gid then (p.1, p.2 ++ [e]) else p)
        else acc ++ [(gid, [e])])
    []

/-! ## Accounts (`accounts.rs`) -/

/-- An account record (only the identity matters to the two commands
modelled here). -/
structure Account where
  pubkey : String
deriving DecidableEq, Repr

/-- The account manager's state: the known accounts and the active one. -/
structure AccountState where
  accounts : List Account
  activePubkey : Option String
deriving DecidableEq, Repr

/-- Modelled from the spec: `Account::find_by_pubkey` — look the account up
by its public key (`NotFound` when absent, here `none`). -/
def findByPubkey (s : AccountState) (pk : String) : Option Account :=
  s.accounts.find? (fun a => a.pubkey == pk)

/-- Modelled from the spec: `Account::set_active` — "at most one account is
active process-wide"; marks the given account active without touching the
account list. -/
def setActive (s : AccountState) (a : Account) : AccountState :=
  { s with activePubkey := some a.pubkey }

/-- Modelled from the spec: `Account::add_from_keys(keys, true, ...)` —
creates the account for the key's public key, stores it, and (second
argument `true`) sets it active. -/
def addFromKeys (s : AccountState) (pk : String) : Account × AccountState :=
  let a : Account := { pubkey := pk }
  (a, { accounts := s.accounts ++ [a], activePubkey := some pk })

/-- The `login` command (accounts.rs lines 70–92).  `parseKeys` is
`Keys::parse` on the nsec-or-hex secret, yielding the derived public key. -/
def login (parseKeys : String → Option String) (s : AccountState)
    (nsecOrHexPrivkey : String) : Except String (Account × AccountState) :=
  match parseKeys nsecOrHexPrivkey with
  | none => .error "Invalid secret key"
  | some pk =>
    match findByPubkey s pk with
    | some account => .ok (account, setActive s account)
    | none => .ok (addFromKeys s pk)

/-- The `logout` command (accounts.rs lines 138–150).  `parsePk` is
`PublicKey::parse`; `removeAcc` is `account.remove(...)` (account-manager
removal, secret deletion, identity switch).  The account lookup goes
through `.expect("No account found")`: a miss is a panic, not an `Err`. -/
def logout (parsePk : String → Option String)
    (removeAcc : Account → Except String Unit) (s : AccountState)
    (hexPubkey : String) : Outcome Unit :=
  match parsePk hexPubkey with
  | none => .err "Error parsing public key"
  | some pk =>
    match findByPubkey s pk with
    | none => .panic "No account found"
    | some account =>
      match removeAcc account with
      | .error e => .err ("Error logging out: " ++ e)
      | .ok _ => .ok ()

/-! ## Concrete instances used in witnesses and counterexamples -/

/-- A fully successful `create_group` environment: active account and signer
are `"creator"`, every external call succeeds, the MLS group comes back with
two members. -/
def okMlsResult : MlsCreateResult :=
  { memberCount := 2, groupId := [1], epoch := 0, nostrGroupId := "ng1",
    adminPubkeys := [], groupRelays := ["wss://relay.example.com"] }

/-- The group `addGroupMgr` registers for `okMlsResult` on an empty catalog
with `GroupType.directMessage`. -/
def okGroup : Group :=
  { mlsGroupId := [1], nostrGroupId := "ng1", epoch := 0,
    groupType := GroupType.directMessage,
    relayUrls := ["wss://relay.example.com"], transcript := [] }

/-- `create_group` environment in which every external call succeeds. -/
def okCGEnv : CGEnv :=
  { activePubkey := .ok "creator"
    signerPubkey := .ok "creator"
    fetchKeyPackages := fun _ => .ok []
    settingsRelays := ["wss://relay.example.com"]
    isDevBuild := false
    mlsCreateGroup := fun _ => .ok okMlsResult
    prepareWelcome := fun _ => .ok ()
    sendAttempt := fun _ _ => .ok ()
    emitGroupAdded := fun _ => .ok ()
    addGroupIds := .ok () }

/-- Inner application events produced by the concrete fetch environment. -/
def cUe1 : UnsignedEvent :=
  { pubkey := "alice", created_at := 1, kind := 9, tags := [],
    content := "hello", id := some 1 }

/-- Second inner application event for the concrete fetch environment. -/
def cUe2 : UnsignedEvent :=
  { pubkey := "alice", created_at := 2, kind := 9, tags := [],
    content := "world", id := some 2 }

/-- First relay event of the concrete batch. -/
def cEv1 : NEvent :=
  { id := 1, created_at := 1, tags := [{ kind := "h", values := ["ng1"] }],
    content := "c1" }

/-- Second relay event of the concrete batch. -/
def cEv2 : NEvent :=
  { id := 2, created_at := 2, tags := [{ kind := "h", values := ["ng1"] }],
    content := "c2" }

/-- A fetch environment in which every stage succeeds and the two ciphertexts
`"c1"`, `"c2"` decode to the two distinct inner events `cUe1`, `cUe2`. -/
def cFetchEnv : FetchEnv :=
  { getKeys := .ok ()
    decrypt := fun c => .ok (if c = "c1" then [1] else [2])
    processMessage := fun b => .ok b
    jsonParse := fun b => some (if b = [1] then "j1" else "j2")
    ueFromJson := fun j => some (if j = "j1" then cUe1 else cUe2)
    emitReceived := fun _ => .ok () }

/-- A `send_mls_message` environment in which every stage succeeds except the
final `emit("mls_message_sent")`. -/
def cSendEnv : SendEnv :=
  { signerPubkey := .ok "alice"
    now := 7
    eventIdOf := fun _ => 42
    toJson := fun _ => .ok "json"
    createMessage := fun _ _ => .ok [3]
    exportSecret := fun _ => .ok ("sechex", 0)
    storeSecret := fun _ _ _ => .ok ()
    parseKeys := fun _ => .ok ()
    encrypt := fun _ _ => .ok "cipher"
    signEvent := fun _ _ => .ok { id := 9, created_at := 5, tags := [], content := "cipher" }
    publish := fun _ _ => .ok ()
    emitSent := .error "emit boom"
    isDevBuild := false }

/-- The registered group the concrete send targets. -/
def cGroup : Group :=
  { mlsGroupId := [1], nostrGroupId := "ng1", epoch := 0,
    groupType := GroupType.group,
    relayUrls := ["wss://relay.example.com"], transcript := [] }

/-! # Theorems -/

/-- Claim C3, counterexample: in a development build `send_mls_message` does
not publish to the group's relay set with `ws://localhost:8080` appended — it
publishes to `["ws://localhost:8080"]` alone, discarding the group's other
relays. -/
theorem dev_relay_appended_cex :
    sendMessageRelays true ["wss://relay.example.com"] = ["ws://localhost:8080"] ∧
    sendMessageRelays true ["wss://relay.example.com"] ≠
      ["wss://relay.example.com"] ++ ["ws://localhost:8080"] := by
  constructor
  · rfl
  · decide

/-- Claim C3, amended: in a development build, `create_group` uses the
settings relay set with `ws://localhost:8080` appended (other relays
retained), while `send_mls_message` publishes to `["ws://localhost:8080"]`
alone, replacing the group's relay set. -/
theorem dev_relay_composition (settingsRelays groupRelayUrls : List String) :
    composeGroupRelays settingsRelays true = settingsRelays ++ ["ws://localhost:8080"] ∧
    sendMessageRelays true groupRelayUrls = ["ws://localhost:8080"] := by
  constructor <;> rfl

/-- Claim C7: for every successful `create_group` call, the registered group
has `group_type = DirectMessage` iff the resulting MLS group's member count
equals 2, and otherwise `group_type = Group`. -/
theorem group_type_direct_message_iff (env : CGEnv) (mgr : List Group)
    (creatorPubkey : String) (memberPubkeys adminPubkeys : List String)
    (g : Group) (mgr' : List Group) (res : MlsCreateResult)
    (hmls : env.mlsCreateGroup (composeGroupRelays env.settingsRelays env.isDevBuild) = .ok res)
    (h : createGroup env mgr creatorPubkey memberPubkeys adminPubkeys = (.ok g, mgr')) :
    (g.groupType = GroupType.directMessage ↔ res.memberCount = 2) ∧
    (res.memberCount ≠ 2 → g.groupType = GroupType.group) := by
  unfold createGroup at h
  split at h
  · exact absurd h (by simp)
  · split at h
    · exact absurd h (by simp)
    · split at h
      · exact absurd h (by simp)
      · split at h
        · exact absurd h (by simp)
        · split at h
          · exact absurd h (by simp)
          · split at h
            · exact absurd h (by simp)
            · rename_i res2 hmls2
              rw [hmls] at hmls2
              injection hmls2 with hres
              subst hres
              split at h
              · exact absurd h (by simp)
              · split at h
                · exact absurd h (by simp)
                · rename_i nostrGroup mgr2 hadd
                  unfold addGroupMgr at hadd
                  split at hadd
                  · exact absurd hadd (by simp)
                  · simp only [Except.ok.injEq, Prod.mk.injEq] at hadd
                    obtain ⟨hg, _⟩ := hadd
                    split at h
                    · exact absurd h (by simp)
                    · split at h
                      · exact absurd h (by simp)
                      · simp only [Prod.mk.injEq, Except.ok.injEq] at h
                        obtain ⟨hgg, _⟩ := h
                        subst hgg
                        rw [← hg]
                        unfold groupTypeForCount
                        by_cases hc : res.memberCount = 2 <;> simp [hc]

/-- Witness for `group_type_direct_message_iff` at a concrete successful
call: the environment `okCGEnv` returns a two-member MLS group, and the
registered group is a `DirectMessage`. -/
theorem group_type_direct_message_iff_witness :
    (okGroup.groupType = GroupType.directMessage ↔ okMlsResult.memberCount = 2) ∧
    (okMlsResult.memberCount ≠ 2 → okGroup.groupType = GroupType.group) :=
  group_type_direct_message_iff okCGEnv [] "creator" ["member"] [] okGroup [okGroup]
    okMlsResult rfl rfl

/-- Claim C6: for each invited member, publishing the gift-wrapped welcome is
attempted at most 5 times with a 1-second delay between consecutive attempts
(so never after the final one); the publication fails iff all 5 attempts
fail; when all 5 fail, `create_group` aborts with the error carrying the last
publish error and only 4 delays occurred. -/
theorem welcome_retry_policy :
    (∀ attempt : Nat → Except String Unit,
      (welcomeRetry attempt).attemptsMade ≤ 5 ∧
      (welcomeRetry attempt).sleeps + 1 = (welcomeRetry attempt).attemptsMade) ∧
    (∀ attempt : Nat → Except String Unit,
      (∃ e, welcomePublish attempt = .error e) ↔
        (isErr (attempt 0) = true ∧ isErr (attempt 1) = true ∧ isErr (attempt 2) = true ∧
         isErr (attempt 3) = true ∧ isErr (attempt 4) = true)) ∧
    (∀ (attempt : Nat → Except String Unit) (e0 e1 e2 e3 e4 : String),
      attempt 0 = .error e0 → attempt 1 = .error e1 → attempt 2 = .error e2 →
      attempt 3 = .error e3 → attempt 4 = .error e4 →
      welcomePublish attempt = .error (mkWelcomeFailure 5 (some e4)) ∧
      (welcomeRetry attempt).sleeps = 4 ∧ (welcomeRetry attempt).attemptsMade = 5) ∧
    (∀ (env : CGEnv) (mgr : List Group) (creator m : String)
        (rest admins kps : List String) (res : MlsCreateResult) (e0 e1 e2 e3 e4 : String),
      env.activePubkey = .ok creator → env.signerPubkey = .ok creator →
      validateGroupMembers creator (m :: rest) admins = .ok () →
      env.fetchKeyPackages (m :: rest) = .ok kps →
      env.mlsCreateGroup (composeGroupRelays env.settingsRelays env.isDevBuild) = .ok res →
      env.prepareWelcome m = .ok () →
      env.sendAttempt m 0 = .error e0 → env.sendAttempt m 1 = .error e1 →
      env.sendAttempt m 2 = .error e2 → env.sendAttempt m 3 = .error e3 →
      env.sendAttempt m 4 = .error e4 →
      createGroup env mgr creator (m :: rest) admins =
        (.error (mkWelcomeFailure 5 (some e4)), mgr)) := by
  refine ⟨?_, ?_, ?_, ?_⟩
  · intro attempt
    cases h0 : attempt 0 <;> cases h1 : attempt 1 <;> cases h2 : attempt 2 <;>
      cases h3 : attempt 3 <;> cases h4 : attempt 4 <;>
      simp [welcomeRetry, welcomeLoop, RetryResult.attemptsMade, h0, h1, h2, h3, h4]
  · intro attempt
    cases h0 : attempt 0 <;> cases h1 : attempt 1 <;> cases h2 : attempt 2 <;>
      cases h3 : attempt 3 <;> cases h4 : attempt 4 <;>
      simp [welcomePublish, welcomeRetry, welcomeLoop, isErr, h0, h1, h2, h3, h4]
  · intro attempt e0 e1 e2 e3 e4 h0 h1 h2 h3 h4
    refine ⟨?_, ?_, ?_⟩ <;>
      simp [welcomePublish, welcomeRetry, welcomeLoop, RetryResult.attemptsMade,
        h0, h1, h2, h3, h4]
  · intro env mgr creator m rest admins kps res e0 e1 e2 e3 e4
      hact hsig hval hkp hmls hprep h0 h1 h2 h3 h4
    unfold createGroup
    rw [hact, hsig, hval, hkp, hmls]
    have hfan : welcomeFanout env.prepareWelcome env.sendAttempt (m :: rest) =
        .error (mkWelcomeFailure 5 (some e4)) := by
      unfold welcomeFanout
      rw [hprep]
      have : welcomePublish (env.sendAttempt m) = .error (mkWelcomeFailure 5 (some e4)) := by
        simp [welcomePublish, welcomeRetry, welcomeLoop, h0, h1, h2, h3, h4]
      rw [this]
    rw [hfan]
    simp

/-- Witness for `welcome_retry_policy`: a concrete member whose five publish
attempts all fail makes `create_group` return the formatted failure carrying
the last error, after exactly 4 sleeps. -/
theorem welcome_retry_policy_witness :
    createGroup
        { okCGEnv with sendAttempt := fun _ i => .error ("boom " ++ toString i) }
        [] "creator" ["member"] [] =
      (.error (mkWelcomeFailure 5 (some "boom 4")), []) ∧
    (welcomeRetry (fun i => .error ("boom " ++ toString i))).sleeps = 4 := by
  constructor
  · exact welcome_retry_policy.2.2.2
      { okCGEnv with sendAttempt := fun _ i => .error ("boom " ++ toString i) }
      [] "creator" "member" [] [] [] okMlsResult
      "boom 0" "boom 1" "boom 2" "boom 3" "boom 4"
      rfl rfl rfl rfl rfl rfl rfl rfl rfl rfl rfl
  · exact (welcome_retry_policy.2.2.1 (fun i => .error ("boom " ++ toString i))
      "boom 0" "boom 1" "boom 2" "boom 3" "boom 4" rfl rfl rfl rfl rfl).2.1

/-- Claim C2, counterexample: in a run of `create_group` where every stage
succeeds except the final `emit("group_added")`, the operation fails — it
returns the emission error instead of its normal `Ok(group)` result. -/
theorem emit_failure_swallowed_cex :
    (createGroup { okCGEnv with emitGroupAdded := fun _ => .error "emit failed" }
        [] "creator" ["member"] []).1 = .error "emit failed" := by
  rfl

/-- Claim C2, amended: a failure while emitting an event to subscribers does
fail the operation: `create_group` returns the `group_added` emission error
via `map_err(...)?`, while `send_mls_message` and `fetch_mls_messages` panic
(`expect("Couldn't emit event")`) when `mls_message_sent` or
`mls_message_received` cannot be emitted. -/
theorem emit_failure_fails_operation :
    (∀ (env : CGEnv) (mgr : List Group) (creator : String)
        (members admins kps : List String) (res : MlsCreateResult)
        (g : Group) (mgr2 : List Group) (e : String),
      env.activePubkey = .ok creator → env.signerPubkey = .ok creator →
      validateGroupMembers creator members admins = .ok () →
      env.fetchKeyPackages members = .ok kps →
      env.mlsCreateGroup (composeGroupRelays env.settingsRelays env.isDevBuild) = .ok res →
      welcomeFanout env.prepareWelcome env.sendAttempt members = .ok () →
      addGroupMgr mgr res.groupId res.epoch (groupTypeForCount res.memberCount) res =
        .ok (g, mgr2) →
      env.emitGroupAdded g = .error e →
      createGroup env mgr creator members admins = (.error e, mgr2)) ∧
    (∀ (env : SendEnv) (mgr : List Group) (group : Group) (message pk : String)
        (js : String) (sm : List Nat) (sh : String) (ep : Nat) (ec : String)
        (pe : NEvent) (g2 : Group) (mgr2 : List Group) (e : String),
      env.signerPubkey = .ok pk →
      env.toJson (mkInnerEvent env pk message) = .ok js →
      env.createMessage group.mlsGroupId js = .ok sm →
      env.exportSecret group.mlsGroupId = .ok (sh, ep) →
      env.storeSecret group.mlsGroupId ep sh = .ok () →
      env.parseKeys sh = .ok () →
      env.encrypt sh sm = .ok ec →
      env.signEvent ec group.nostrGroupId = .ok pe →
      env.publish (sendMessageRelays env.isDevBuild group.relayUrls) pe = .ok () →
      mgrAddMessage mgr group.mlsGroupId (mkInnerEvent env pk message) = .ok (g2, mgr2) →
      env.emitSent = .error e →
      sendMlsMessage env mgr group message = (.panic "Couldn't emit event", mgr2)) ∧
    (∀ (env : FetchEnv) (snapshot ts em : List UnsignedEvent) (e : NEvent)
        (rest : List NEvent) (ue : UnsignedEvent) (e2 : String),
      decodeEvent env e = .msgD ue →
      hasEventId snapshot ue.id = false →
      env.emitReceived ue = .error e2 →
      fetchGroupEvents env snapshot (e :: rest) ts em =
        .panicked "Couldn't emit event" (addMessageToGroup ts ue) em) := by
  refine ⟨?_, ?_, ?_⟩
  · intro env mgr creator members admins kps res g mgr2 e
      hact hsig hval hkp hmls hfan hadd hemit
    simp [createGroup, hact, hsig, hval, hkp, hmls, hfan, hadd, hemit]
  · intro env mgr group message pk js sm sh ep ec pe g2 mgr2 e
      hsig hjson hcm hexp hstore hparse henc hsign hpub hadd hemit
    simp [sendMlsMessage, hsig, hjson, hcm, hexp, hstore, hparse, henc, hsign,
      hpub, hadd, hemit]
  · intro env snapshot ts em e rest ue e2 hdec hdup hemit
    simp [fetchGroupEvents, hdec, hdup, hemit]

/-- Witness for `emit_failure_fails_operation` at concrete runs: a failing
`group_added` emission turns `create_group` into an `Err`; a failing
`mls_message_sent` emission makes `send_mls_message` panic; a failing
`mls_message_received` emission makes the fetch loop panic. -/
theorem emit_failure_fails_operation_witness :
    createGroup { okCGEnv with emitGroupAdded := fun _ => .error "boom" }
        [] "creator" ["member"] [] = (.error "boom", [okGroup]) ∧
    sendMlsMessage cSendEnv [cGroup] cGroup "hi" =
      (.panic "Couldn't emit event",
        [{ cGroup with transcript := [mkInnerEvent cSendEnv "alice" "hi"] }]) ∧
    fetchGroupEvents { cFetchEnv with emitReceived := fun _ => .error "boom" }
        [] [cEv1] [] [] = .panicked "Couldn't emit event" [cUe1] [] := by
  refine ⟨?_, ?_, ?_⟩
  · exact emit_failure_fails_operation.1
      { okCGEnv with emitGroupAdded := fun _ => .error "boom" }
      [] "creator" ["member"] [] [] okMlsResult okGroup [okGroup] "boom"
      rfl rfl rfl rfl rfl rfl rfl rfl
  · exact emit_failure_fails_operation.2.1 cSendEnv [cGroup] cGroup "hi" "alice"
      "json" [3] "sechex" 0 "cipher"
      { id := 9, created_at := 5, tags := [], content := "cipher" }
      { cGroup with transcript := [mkInnerEvent cSendEnv "alice" "hi"] }
      [{ cGroup with transcript := [mkInnerEvent cSendEnv "alice" "hi"] }] "emit boom"
      rfl rfl rfl rfl rfl rfl rfl rfl rfl rfl rfl
  · exact emit_failure_fails_operation.2.2
      { cFetchEnv with emitReceived := fun _ => .error "boom" }
      [] [] [] cEv1 [] cUe1 "boom" rfl rfl rfl

/-- Claim C1, counterexample: a batch of two events where the first one's
content fails symmetric decryption.  `fetch_mls_messages` returns an error
built from that one event and the second event is never processed (no
transcript append, no emission), so the failure is not localized. -/
theorem decrypt_failure_localized_cex :
    fetchForGroup
        { cFetchEnv with
            decrypt := fun c => if c = "c1" then .error "bad mac" else .ok [2] }
        [] [cEv1, cEv2] =
      .error ("Error decrypting message: " ++ "bad mac") [] [] := by
  rfl

/-- Claim C1, amended: a failure to symmetrically decrypt one event's content
aborts `fetch_mls_messages` via `map_err(...)?`: the call returns
`Err("Error decrypting message: ...")` at that event and the remaining events
of the batch are not processed. -/
theorem decrypt_failure_aborts_fetch (env : FetchEnv)
    (snapshot ts em : List UnsignedEvent) (e : NEvent) (rest : List NEvent)
    (msg : String)
    (hk : env.getKeys = .ok ())
    (hd : env.decrypt e.content = .error msg) :
    fetchGroupEvents env snapshot (e :: rest) ts em =
      .error ("Error decrypting message: " ++ msg) ts em := by
  simp [fetchGroupEvents, decodeEvent, hk, hd]

/-- Witness for `decrypt_failure_aborts_fetch` at a concrete batch: the
decryption error of the first event is returned for the whole call. -/
theorem decrypt_failure_aborts_fetch_witness :
    fetchGroupEvents
        { cFetchEnv with
            decrypt := fun c => if c = "c1" then .error "bad mac" else .ok [2] }
        [] [cEv1, cEv2] [] [] =
      .error ("Error decrypting message: " ++ "bad mac") [] [] :=
  decrypt_failure_aborts_fetch
    { cFetchEnv with
        decrypt := fun c => if c = "c1" then .error "bad mac" else .ok [2] }
    [] [] [] cEv1 [cEv2] "bad mac" rfl rfl

/-- Claim C4: if the MLS engine's `process_message` fails on an event —
whether with `ProcessMessageError` or any other engine error — that event is
skipped (`continue`) and the batch proceeds with the remaining events;
processing that event is never what aborts the batch. -/
theorem process_error_skips_event (env : FetchEnv)
    (snapshot ts em : List UnsignedEvent) (e : NEvent) (rest : List NEvent)
    (d : List Nat) (ge : GroupErr)
    (hk : env.getKeys = .ok ())
    (hd : env.decrypt e.content = .ok d)
    (hp : env.processMessage d = .error ge) :
    decodeEvent env e = .skipD ∧
    fetchGroupEvents env snapshot (e :: rest) ts em =
      fetchGroupEvents env snapshot rest ts em := by
  constructor
  · simp [decodeEvent, hk, hd, hp]
  · simp [fetchGroupEvents, decodeEvent, hk, hd, hp]

/-- Witness for `process_error_skips_event` at a concrete batch, once for a
`ProcessMessageError` and once for another engine error: in both cases the
failing first event is skipped and the second event is still delivered. -/
theorem process_error_skips_event_witness :
    (fetchGroupEvents
        { cFetchEnv with
            processMessage := fun b =>
              if b = [1] then .error (.processMessageError "bad epoch") else .ok b }
        [] [cEv1, cEv2] [] [] =
      fetchGroupEvents
        { cFetchEnv with
            processMessage := fun b =>
              if b = [1] then .error (.processMessageError "bad epoch") else .ok b }
        [] [cEv2] [] []) ∧
    (fetchGroupEvents
        { cFetchEnv with
            processMessage := fun b =>
              if b = [1] then .error (.otherError "state corrupt") else .ok b }
        [] [cEv1, cEv2] [] [] =
      fetchGroupEvents
        { cFetchEnv with
            processMessage := fun b =>
              if b = [1] then .error (.otherError "state corrupt") else .ok b }
        [] [cEv2] [] []) := by
  constructor
  · exact (process_error_skips_event
      { cFetchEnv with
          processMessage := fun b =>
            if b = [1] then .error (.processMessageError "bad epoch") else .ok b }
      [] [] [] cEv1 [cEv2] [1] (.processMessageError "bad epoch") rfl rfl rfl).2
  · exact (process_error_skips_event
      { cFetchEnv with
          processMessage := fun b =>
            if b = [1] then .error (.otherError "state corrupt") else .ok b }
      [] [] [] cEv1 [cEv2] [1] (.otherError "state corrupt") rfl rfl rfl).2

/-- Claim C10: during `fetch_mls_messages`, a decrypted application payload
that parses as JSON but is not a valid `UnsignedEvent` panics the call (the
`unwrap` on `UnsignedEvent::from_json`), while a payload failing JSON parsing
entirely is only logged and skipped. -/
theorem invalid_unsigned_event_panics (env : FetchEnv)
    (snapshot ts em : List UnsignedEvent) (e : NEvent) (rest : List NEvent)
    (d b : List Nat) (j : String)
    (hk : env.getKeys = .ok ())
    (hd : env.decrypt e.content = .ok d)
    (hp : env.processMessage d = .ok b) :
    (env.jsonParse b = some j → env.ueFromJson j = none →
      fetchGroupEvents env snapshot (e :: rest) ts em =
        .panicked "called unwrap on an Err of UnsignedEvent from_json" ts em) ∧
    (env.jsonParse b = none →
      fetchGroupEvents env snapshot (e :: rest) ts em =
        fetchGroupEvents env snapshot rest ts em) := by
  constructor
  · intro hj hu
    simp [fetchGroupEvents, decodeEvent, hk, hd, hp, hj, hu]
  · intro hj
    simp [fetchGroupEvents, decodeEvent, hk, hd, hp, hj]

/-- Witness for `invalid_unsigned_event_panics` at a concrete batch: a
payload that is JSON but not an `UnsignedEvent` panics the fetch; a payload
that is not JSON at all is skipped and the batch continues. -/
theorem invalid_unsigned_event_panics_witness :
    (fetchGroupEvents { cFetchEnv with ueFromJson := fun _ => none }
        [] [cEv1, cEv2] [] [] =
      .panicked "called unwrap on an Err of UnsignedEvent from_json" [] []) ∧
    (fetchGroupEvents { cFetchEnv with jsonParse := fun _ => none }
        [] [cEv1, cEv2] [] [] =
      fetchGroupEvents { cFetchEnv with jsonParse := fun _ => none }
        [] [cEv2] [] []) := by
  constructor
  · exact (invalid_unsigned_event_panics
      { cFetchEnv with ueFromJson := fun _ => none }
      [] [] [] cEv1 [cEv2] [1] [1] "j1" rfl rfl rfl).1 rfl rfl
  · exact (invalid_unsigned_event_panics
      { cFetchEnv with jsonParse := fun _ => none }
      [] [] [] cEv1 [cEv2] [1] [1] "j1" rfl rfl rfl).2 rfl

/-- Claim C8: logging in twice with the same secret key yields the same
account identity both times and does not create a second account — after the
first `login`, the account is found by its public key, and a second `login`
returns that same account, merely setting it active (the account list is
unchanged). -/
theorem login_twice_same_identity (parseKeys : String → Option String)
    (s0 : AccountState) (secret pk : String) (a1 : Account) (s1 : AccountState)
    (hp : parseKeys secret = some pk)
    (h1 : login parseKeys s0 secret = .ok (a1, s1)) :
    a1.pubkey = pk ∧ findByPubkey s1 pk = some a1 ∧
    login parseKeys s1 secret = .ok (a1, setActive s1 a1) ∧
    (setActive s1 a1).accounts = s1.accounts := by
  unfold login at h1
  simp only [hp] at h1
  cases hfind : findByPubkey s0 pk with
  | some a =>
    simp only [hfind, Except.ok.injEq, Prod.mk.injEq] at h1
    obtain ⟨rfl, rfl⟩ := h1
    have hpk : a.pubkey = pk := by
      simpa using List.find?_some hfind
    have hfind1 : findByPubkey (setActive s0 a) pk = some a := hfind
    exact ⟨hpk, hfind1, by simp [login, hp, hfind1], rfl⟩
  | none =>
    simp only [hfind, addFromKeys, Except.ok.injEq, Prod.mk.injEq] at h1
    obtain ⟨rfl, rfl⟩ := h1
    unfold findByPubkey at hfind
    have hfind1 : findByPubkey
        { accounts := s0.accounts ++ [{ pubkey := pk }], activePubkey := some pk }
        pk = some { pubkey := pk } := by
      simp [findByPubkey, List.find?_append, hfind]
    exact ⟨rfl, hfind1, by simp [login, hp, hfind1], rfl⟩

/-- Witness for `login_twice_same_identity` at a concrete secret: logging in
with `"nsec1"` twice from an empty account list yields the same `"pk1"`
account and no duplicate. -/
theorem login_twice_same_identity_witness :
    ({ pubkey := "pk1" } : Account).pubkey = "pk1" ∧
    findByPubkey { accounts := [{ pubkey := "pk1" }], activePubkey := some "pk1" } "pk1" =
      some { pubkey := "pk1" } ∧
    login (fun s => if s = "nsec1" then some "pk1" else none)
        { accounts := [{ pubkey := "pk1" }], activePubkey := some "pk1" } "nsec1" =
      .ok ({ pubkey := "pk1" },
        setActive { accounts := [{ pubkey := "pk1" }], activePubkey := some "pk1" }
          { pubkey := "pk1" }) ∧
    (setActive { accounts := [{ pubkey := "pk1" }], activePubkey := some "pk1" }
        { pubkey := "pk1" }).accounts =
      ({ accounts := [{ pubkey := "pk1" }], activePubkey := some "pk1" } : AccountState).accounts :=
  login_twice_same_identity (fun s => if s = "nsec1" then some "pk1" else none)
    { accounts := [], activePubkey := none } "nsec1" "pk1" { pubkey := "pk1" }
    { accounts := [{ pubkey := "pk1" }], activePubkey := some "pk1" } rfl rfl

/-- Claim C9: `logout` on a well-formed public key that matches no known
account panics (the `expect("No account found")`) rather than returning an
error value; only under the precondition that the account exists does it
return `Ok` or `Err`. -/
theorem logout_panics_without_account :
    (∀ (parsePk : String → Option String) (removeAcc : Account → Except String Unit)
        (s : AccountState) (hex pk : String),
      parsePk hex = some pk → findByPubkey s pk = none →
      logout parsePk removeAcc s hex = .panic "No account found") ∧
    (∀ (parsePk : String → Option String) (removeAcc : Account → Except String Unit)
        (s : AccountState) (hex pk : String) (a : Account),
      parsePk hex = some pk → findByPubkey s pk = some a →
      logout parsePk removeAcc s hex = .ok () ∨
        ∃ e, logout parsePk removeAcc s hex = .err e) := by
  constructor
  · intro parsePk removeAcc s hex pk hp hf
    simp [logout, hp, hf]
  · intro parsePk removeAcc s hex pk a hp hf
    cases hr : removeAcc a with
    | error e =>
      right
      exact ⟨"Error logging out: " ++ e, by simp [logout, hp, hf, hr]⟩
    | ok v =>
      left
      simp [logout, hp, hf, hr]

/-- Witness for `logout_panics_without_account`: with no accounts known,
`logout` of the well-formed key `"deadbeef"` panics with "No account found";
with the account present it returns `Ok`. -/
theorem logout_panics_without_account_witness :
    logout (fun h => some h) (fun _ => .ok ())
        { accounts := [], activePubkey := none } "deadbeef" =
      .panic "No account found" ∧
    (logout (fun h => some h) (fun _ => .ok ())
        { accounts := [{ pubkey := "deadbeef" }], activePubkey := none } "deadbeef" =
        .ok () ∨
      ∃ e, logout (fun h => some h) (fun _ => .ok ())
        { accounts := [{ pubkey := "deadbeef" }], activePubkey := none } "deadbeef" =
        .err e) := by
  constructor
  · exact logout_panics_without_account.1 (fun h => some h) (fun _ => .ok ())
      { accounts := [], activePubkey := none } "deadbeef" "deadbeef" rfl rfl
  · exact logout_panics_without_account.2 (fun h => some h) (fun _ => .ok ())
      { accounts := [{ pubkey := "deadbeef" }], activePubkey := none } "deadbeef"
      "deadbeef" { pubkey := "deadbeef" } rfl rfl

/-- Membership in a transcript after a manager append: the new transcript
has an id iff the old one had it or it is the appended event's id. -/
lemma hasEventId_addMessageToGroup (ts : List UnsignedEvent) (ue : UnsignedEvent)
    (i : Option Nat) :
    hasEventId (addMessageToGroup ts ue) i = (hasEventId ts i || ue.id == i) := by
  unfold addMessageToGroup
  split
  · rename_i h
    cases hbeq : (ue.id == i) with
    | false => simp [hbeq]
    | true =>
      have hid : ue.id = i := by simpa using hbeq
      rw [← hid]
      simp [h]
  · simp [hasEventId, List.any_append]

/-- Along a successfully completed batch, the manager-side transcript only
grows: any id present at the start is present at the end. -/
lemma fetch_mono (env : FetchEnv) (S : List UnsignedEvent) :
    ∀ (evs : List NEvent) (ts em ts1 em1 : List UnsignedEvent),
      fetchGroupEvents env S evs ts em = .ok ts1 em1 →
      ∀ i, hasEventId ts i = true → hasEventId ts1 i = true := by
  intro evs
  induction evs with
  | nil =>
    intro ts em ts1 em1 h i hi
    simp only [fetchGroupEvents, FetchGroupResult.ok.injEq] at h
    obtain ⟨rfl, rfl⟩ := h
    exact hi
  | cons e0 rest ih =>
    intro ts em ts1 em1 h i hi
    unfold fetchGroupEvents at h
    cases hdec : decodeEvent env e0 with
    | abortD err =>
      simp only [hdec] at h
      exact absurd h (by simp)
    | panicD =>
      simp only [hdec] at h
      exact absurd h (by simp)
    | skipD =>
      simp only [hdec] at h
      exact ih ts em ts1 em1 h i hi
    | msgD ue =>
      simp only [hdec] at h
      split at h
      · exact ih ts em ts1 em1 h i hi
      · cases hem : env.emitReceived ue with
        | error e2 =>
          simp only [hem] at h
          exact absurd h (by simp)
        | ok v =>
          simp only [hem] at h
          refine ih _ _ ts1 em1 h i ?_
          rw [hasEventId_addMessageToGroup]
          simp [hi]

/-- In a successfully completed batch, every event either decodes to a skip
or to a message whose id ends up either in the snapshot or in the final
transcript. -/
lemma fetch_decode_facts (env : FetchEnv) (S : List UnsignedEvent) :
    ∀ (evs : List NEvent) (ts em ts1 em1 : List UnsignedEvent),
      fetchGroupEvents env S evs ts em = .ok ts1 em1 →
      ∀ e ∈ evs, decodeEvent env e = .skipD ∨
        ∃ ue, decodeEvent env e = .msgD ue ∧
          (hasEventId S ue.id = true ∨ hasEventId ts1 ue.id = true) := by
  intro evs
  induction evs with
  | nil =>
    intro ts em ts1 em1 h e he
    exact absurd he (List.not_mem_nil e)
  | cons e0 rest ih =>
    intro ts em ts1 em1 h e he
    unfold fetchGroupEvents at h
    cases hdec : decodeEvent env e0 with
    | abortD err =>
      simp only [hdec] at h
      exact absurd h (by simp)
    | panicD =>
      simp only [hdec] at h
      exact absurd h (by simp)
    | skipD =>
      simp only [hdec] at h
      rcases List.mem_cons.mp he with rfl | hmem
      · exact .inl hdec
      · exact ih ts em ts1 em1 h e hmem
    | msgD ue =>
      simp only [hdec] at h
      split at h
      · rename_i hdup
        rcases List.mem_cons.mp he with rfl | hmem
        · exact .inr ⟨ue, hdec, .inl hdup⟩
        · exact ih ts em ts1 em1 h e hmem
      · rename_i hdup
        cases hem : env.emitReceived ue with
        | error e2 =>
          simp only [hem] at h
          exact absurd h (by simp)
        | ok v =>
          simp only [hem] at h
          rcases List.mem_cons.mp he with rfl | hmem
          · refine .inr ⟨ue, hdec, .inr ?_⟩
            refine fetch_mono env S rest _ _ ts1 em1 h ue.id ?_
            rw [hasEventId_addMessageToGroup]
            simp
          · exact ih _ _ ts1 em1 h e hmem

/-- Every event emitted by a successfully completed batch was either already
in the emission accumulator or has an id that is not in the snapshot
transcript. -/
lemma fetch_emitted_new (env : FetchEnv) (S : List UnsignedEvent) :
    ∀ (evs : List NEvent) (ts em ts1 em1 : List UnsignedEvent),
      fetchGroupEvents env S evs ts em = .ok ts1 em1 →
      ∀ ue ∈ em1, ue ∈ em ∨ hasEventId S ue.id = false := by
  intro evs
  induction evs with
  | nil =>
    intro ts em ts1 em1 h ue hue
    simp only [fetchGroupEvents, FetchGroupResult.ok.injEq] at h
    obtain ⟨rfl, rfl⟩ := h
    exact .inl hue
  | cons e0 rest ih =>
    intro ts em ts1 em1 h ue hue
    unfold fetchGroupEvents at h
    cases hdec : decodeEvent env e0 with
    | abortD err =>
      simp only [hdec] at h
      exact absurd h (by simp)
    | panicD =>
      simp only [hdec] at h
      exact absurd h (by simp)
    | skipD =>
      simp only [hdec] at h
      exact ih ts em ts1 em1 h ue hue
    | msgD ue0 =>
      simp only [hdec] at h
      split at h
      · exact ih ts em ts1 em1 h ue hue
      · rename_i hdup
        cases hem : env.emitReceived ue0 with
        | error e2 =>
          simp only [hem] at h
          exact absurd h (by simp)
        | ok v =>
          simp only [hem] at h
          rcases ih _ _ ts1 em1 h ue hue with hin | hnew
          · rcases List.mem_append.mp hin with hin2 | hin2
            · exact .inl hin2
            · right
              have : ue = ue0 := by simpa using hin2
              subst this
              simpa using hdup
          · exact .inr hnew

/-- A batch in which every event decodes to a skip or to a message whose id
is already in the snapshot leaves the transcript untouched and emits
nothing. -/
lemma fetch_noop (env : FetchEnv) (S2 : List UnsignedEvent) :
    ∀ (evs : List NEvent),
      (∀ e ∈ evs, decodeEvent env e = .skipD ∨
        ∃ ue, decodeEvent env e = .msgD ue ∧ hasEventId S2 ue.id = true) →
      ∀ ts em, fetchGroupEvents env S2 evs ts em = .ok ts em := by
  intro evs
  induction evs with
  | nil =>
    intro _ ts em
    rfl
  | cons e0 rest ih =>
    intro hall ts em
    unfold fetchGroupEvents
    rcases hall e0 (List.mem_cons_self e0 rest) with hskip | ⟨ue, hdec, hdup⟩
    · rw [hskip]
      exact ih (fun e he => hall e (List.mem_cons_of_mem e0 he)) ts em
    · rw [hdec]
      simp only [hdup, if_true]
      exact ih (fun e he => hall e (List.mem_cons_of_mem e0 he)) ts em

/-- Claim C5, counterexample: within a single `fetch_mls_messages` call, two
relay events whose MLS payloads decode to the same inner event are each
emitted — the dedup check reads the transcript snapshot taken when the
group's bucket began, so `mls_message_received` fires twice for event id 1
during one invocation (the manager still stores it once). -/
theorem fetch_duplicate_emission_cex :
    fetchForGroup { cFetchEnv with jsonParse := fun _ => some "j1" }
        [] [cEv1, cEv2] = .ok [cUe1] [cUe1, cUe1] ∧
    ([cUe1, cUe1].countP fun ue => ue.id == some 1) = 2 := by
  constructor
  · rfl
  · rfl

/-- Claim C5, amended: during one `fetch_mls_messages` invocation, a decoded
application message whose event id is already in the transcript snapshot
taken at the start of the group's bucket is neither appended nor emitted
(every emitted event's id is new relative to that snapshot); consequently a
repeat invocation over the same relay contents leaves the transcript
unchanged and emits nothing.  (Within a single invocation, distinct relay
events decoding to the same new id are each emitted, per the
counterexample.) -/
theorem fetch_transcript_dedup (env : FetchEnv) (ts0 ts1 em1 : List UnsignedEvent)
    (events : List NEvent)
    (h : fetchForGroup env ts0 events = .ok ts1 em1) :
    fetchForGroup env ts1 events = .ok ts1 [] ∧
    ∀ ue ∈ em1, hasEventId ts0 ue.id = false := by
  unfold fetchForGroup at h ⊢
  constructor
  · refine fetch_noop env ts1 (sortEvents events) ?_ ts1 []
    intro e he
    rcases fetch_decode_facts env ts0 (sortEvents events) ts0 [] ts1 em1 h e he with
      hskip | ⟨ue, hdec, hmem⟩
    · exact .inl hskip
    · refine .inr ⟨ue, hdec, ?_⟩
      rcases hmem with hS | hT
      · exact fetch_mono env ts0 (sortEvents events) ts0 [] ts1 em1 h ue.id hS
      · exact hT
  · intro ue hue
    rcases fetch_emitted_new env ts0 (sortEvents events) ts0 [] ts1 em1 h ue hue with
      hin | hnew
    · exact absurd hin (List.not_mem_nil ue)
    · exact hnew

/-- Witness for `fetch_transcript_dedup` at a concrete batch: after a first
invocation delivered `cUe1` and `cUe2`, running the same batch again leaves
the transcript unchanged and emits nothing, and both originally emitted
events were new relative to the empty snapshot. -/
theorem fetch_transcript_dedup_witness :
    fetchForGroup cFetchEnv [cUe1, cUe2] [cEv1, cEv2] = .ok [cUe1, cUe2] [] ∧
    ∀ ue ∈ [cUe1, cUe2], hasEventId [] ue.id = false :=
  fetch_transcript_dedup cFetchEnv [] [cUe1, cUe2] [cUe1, cUe2] [cEv1, cEv2] rfl

end Whitenoise
